import Mathlib

/-!
Shallow embedding of the NES emulator (crate `rust_nes_esp`) for checking the
natural-language specification against the code.

Conventions of the embedding:
* A `u8` value is a `Nat`; byte storage (arrays, `Box<[u8]>`) is a function
  `Nat → Nat` and every read site normalises with `% 256`, encoding the fact
  that the Rust cells have type `u8`.  A `u16` is a `Nat`; additions that the
  source writes with `wrapping_add` carry an explicit `% 65536` / `% 256`,
  additions the source writes with plain `+` are modelled as plain `Nat`
  addition (theorems that depend on them carry the no-overflow bound; the
  checked-arithmetic behaviour of plain `+` is modelled separately by
  `u16AddChecked`).
* The `bitflags` status registers of the CPU are modelled as one `Bool` per
  bit; the PPU status/control registers are kept as byte-valued `Nat`s because
  the source reads them back as raw bytes.
* Rust functions that can panic (slice indexing out of range, `split_at`
  beyond the length) are totalised with `List.getD` / `List.take` / `List.drop`
  at the few places the source would panic; each such place is marked with a
  comment.  No claim below depends on the totalised value.
-/

namespace Nes

/-- Models the checked `u16` addition that Rust performs for plain `+` and
`+=` when overflow checks are on (the default dev/test profile): the sum if it
fits in 16 bits, `none` (a panic in Rust) otherwise. -/
def u16AddChecked (x y : Nat) : Option Nat :=
  if x + y < 65536 then some (x + y) else none

/-- Models `u16::wrapping_add`, and the release-profile behaviour of `+`. -/
def u16AddWrap (x y : Nat) : Nat := (x + y) % 65536

/-- Read a byte out of a byte-valued store (`% 256` encodes the `u8` cell
type). -/
def byteAt (f : Nat → Nat) (i : Nat) : Nat := f i % 256

/-- Pointwise update of a byte store. -/
def updateFn (f : Nat → Nat) (i v : Nat) : Nat → Nat :=
  fun j => if j = i then v else f j

/-! ## PPU (src/ppu.rs) -/

/-- `const PALETTE: [[u8; 3]; 64] = [[0; 3]; 64];` (ppu.rs:12) — the palette
lookup table is entirely zero-filled. -/
def PALETTE : List (List Nat) := List.replicate 64 [0, 0, 0]

/-- `PatternTable::get_pixel` (ppu.rs:22-29): a 2-bit pixel value built from
the two bit-planes of a 16-byte tile.  `data` is the tile as a byte store. -/
def getPixel (data : Nat → Nat) (i j : Nat) : Nat :=
  (data i >>> (7 - j)) &&& 1 ||| (((data (i + 8)) >>> (7 - j)) &&& 1) <<< 1

/-- `PatternTable::write_rgb_row` (ppu.rs:41-47): the 24 bytes (8 RGB triples)
written into the front of the pixel buffer, each triple a `PALETTE` entry at
index `upper_bits | get_pixel(row, j)`.  `List.getD _ []` totalises the array
indexing (the index is at most 15, so the default is never hit). -/
def writeRgbRow (data : Nat → Nat) (row upperBits : Nat) : List Nat :=
  ((List.range 8).map
    (fun j => PALETTE.getD (upperBits ||| getPixel data row j) [])).flatten

/-- `NameTable` (ppu.rs:73-76): tile ids plus the attribute section. -/
structure NameTable where
  table_ids : List Nat
  attr_data : List Nat

/-- `From<&[u8]> for NameTable` (ppu.rs:80-85): `value.split_at(961)`.
Totalised: Rust `split_at` panics when the slice is shorter than 961 (as it is
for the 128-byte slices the render loop builds); the embedding then yields an
empty attribute section instead. -/
def NameTable.ofSlice (value : List Nat) : NameTable :=
  { table_ids := value.take 961, attr_data := value.drop 961 }

/-- `NameTable::map_pattern_to_attribute` (ppu.rs:121-130).  `List.getD _ 0`
totalises the attribute indexing (Rust panics out of range). -/
def NameTable.mapPatternToAttribute (nt : NameTable) (pattern : Nat) : Nat :=
  let attribute_byte := nt.attr_data.getD ((pattern % 32) / 4 + (pattern / 128) * 8) 0
  let shift_amnt := ((pattern % 4) / 2) ||| (((pattern / 32) % 2) <<< 1)
  (attribute_byte >>> (3 - shift_amnt)) &&& 3

/-- `PPU::map_pixel_to_pattern` (ppu.rs:410-415); the trailing `% 256` is the
`as u8` cast. -/
def mapPixelToPattern (pixel : Nat) : Nat :=
  ((pixel / (256 * 8)) * 8 + (pixel / 256) % 8) % 256

/-- `PPUScanLineState` (ppu.rs:141-148). -/
inductive PPUScanLineState where
  | Idle (c : Nat)
  | Render (c : Nat)
  | SpriteFetch (c : Nat)
  | PreFetch (c : Nat)
  | OtherFetch (c : Nat)
deriving DecidableEq, Repr

/-- `PPUState` (ppu.rs:133-139). -/
inductive PPUState where
  | PreRender (c : Nat)
  | VisibleLines (line : Nat) (s : PPUScanLineState)
  | PostRender (c : Nat)
  | Vblank (c : Nat)
deriving DecidableEq, Repr

/-- The PPU record (ppu.rs:190-207).  `vrom` is dropped (only used at load
time); the registers are byte-valued `Nat`s, `byte_shift` is the shared
scroll/VRAM-address write latch (8 = expecting high byte, 0 = low byte). -/
structure PPU where
  state : PPUState
  vram : Nat → Nat
  sprite_ram : Nat → Nat
  ppu_control_1 : Nat
  ppu_control_2 : Nat
  ppu_status : Nat
  spr_ram_address : Nat
  vram_address : Nat
  byte_shift : Nat
  x_scroll : Nat
  y_scroll : Nat

/-- The fields `PPU::new` initialises (ppu.rs:210-234) for an empty `vrom`
vector (as `Memory::from_program` builds it): all-zero storage, latch at 8. -/
def PPU.new : PPU :=
  { state := .PreRender 0
    vram := fun _ => 0
    sprite_ram := fun _ => 0
    ppu_control_1 := 0
    ppu_control_2 := 0
    ppu_status := 0
    spr_ram_address := 0
    vram_address := 0
    byte_shift := 8
    x_scroll := 0
    y_scroll := 0 }

/-- `PPU::read` (ppu.rs:244-254): value returned and the PPU afterwards.  The
match is on the literal address: only `0x2002` resets the latch
(`byte_shift.replace(8)`); every other address in the register window returns
the default `&0` and leaves the latch alone. -/
def PPU.read (p : PPU) (address : Nat) : Nat × PPU :=
  if address = 0x2002 then (p.ppu_status % 256, { p with byte_shift := 8 })
  else if address = 0x2004 then (byteAt p.sprite_ram address, p)
  else if address = 0x2007 then (byteAt p.vram address, p)
  else (0, p)

/-- `PPU::set_ppu_control_1` (ppu.rs:256-258), `from_bits_retain`. -/
def PPU.set_ppu_control_1 (p : PPU) (data : Nat) : PPU :=
  { p with ppu_control_1 := data % 256 }

/-- `PPU::set_ppu_control_2` (ppu.rs:260-262). -/
def PPU.set_ppu_control_2 (p : PPU) (data : Nat) : PPU :=
  { p with ppu_control_2 := data % 256 }

/-- `PPU::set_spr_ram_address` (ppu.rs:264-266). -/
def PPU.set_spr_ram_address (p : PPU) (data : Nat) : PPU :=
  { p with spr_ram_address := data % 256 }

/-- `PPU::set_scroll` (ppu.rs:268-275): write X or Y depending on the latch,
then toggle the latch between 8 and 0. -/
def PPU.set_scroll (p : PPU) (data : Nat) : PPU :=
  let p1 := if p.byte_shift ≠ 0 then { p with x_scroll := data % 256 }
            else { p with y_scroll := data % 256 }
  { p1 with byte_shift := if p.byte_shift = 0 then 8 else 0 }

/-- `PPU::set_vram_address` (ppu.rs:277-284), kept bit-for-bit:
clear the byte selected by the latch, OR in `(data << shift) & 0xa0`
(the source masks with `0xa0`, not the address portion its comment
describes), toggle the latch, then increment the address by 32 or 1
(`PPUControl1::AddressIncrement` is bit 0x04) after every single write. -/
def PPU.set_vram_address (p : PPU) (data : Nat) : PPU :=
  let s := p.byte_shift
  let a1 := p.vram_address &&& ((0xff <<< s) ^^^ 0xffff)
  let a2 := a1 ||| (((data % 256) <<< s) &&& 0xa0)
  let a3 := a2 + (if p.ppu_control_1 &&& 0x04 ≠ 0 then 32 else 1)
  { p with vram_address := a3, byte_shift := if s = 0 then 8 else 0 }

/-- `PPU::write_spram` (ppu.rs:286-288). -/
def PPU.write_spram (p : PPU) (data : Nat) : PPU :=
  { p with sprite_ram := updateFn p.sprite_ram p.spr_ram_address (data % 256) }

/-- `PPU::write_vram` (ppu.rs:290-292): store at `vram_address % VRAM_SIZE`
(`VRAM_SIZE = 16384`). -/
def PPU.write_vram (p : PPU) (data : Nat) : PPU :=
  { p with vram := updateFn p.vram (p.vram_address % 16384) (data % 256) }

/-- `PPU::ignore` (ppu.rs:294). -/
def PPU.ignore (p : PPU) (_data : Nat) : PPU := p

/-- One iteration body of the render loop (ppu.rs:344-364): the bytes the
burst at pixel position `next` writes into the framebuffer.
`NAME_TABLE_SIZE = 8*8+64 = 128`; the pattern address combines the background
table bit and the shifted tile id with `&&&`, exactly as the source does. -/
def PPU.burstWrites (p : PPU) (next : Nat) : List Nat :=
  let name_table_address := (p.ppu_control_1 &&& 0x03) * 128 + 0x2000
  let pattern_idx := mapPixelToPattern next
  let nt := NameTable.ofSlice
    ((List.range 128).map (fun i => byteAt p.vram (name_table_address + i)))
  let pattern_address :=
    ((p.ppu_control_1 &&& 0x10) <<< 8) &&& ((nt.table_ids.getD pattern_idx 0) <<< 4)
  writeRgbRow (fun i => byteAt p.vram (pattern_address + i))
    (next / 256 % 8) ((nt.mapPatternToAttribute pattern_idx) <<< 2)

/-- The `while next < dest && next < RENDER_CYCLES` loop of the Render arm
(ppu.rs:339-364): `next` starts at `cycle / 8 * 8` and steps by 8 while below
both `dest = (cycles + cycle) / 8 * 8` and 256; iteration `i` renders the
burst at pixel `8 * i`. -/
def PPU.renderWrites (p : PPU) (cycle cycles : Nat) : List Nat :=
  let dest := (cycles + cycle) / 8 * 8
  (((List.range 32).filter
      (fun i => decide (cycle / 8 ≤ i) && decide (8 * i < dest))).map
    (fun i => p.burstWrites (8 * i))).flatten

/-- `PPU::advance` (ppu.rs:296-408), with an explicit fuel for the recursive
calls (each recursive call strictly shrinks the remaining cycle budget, so any
fuel larger than the number of phase transitions yields the value; `none`
means the fuel ran out).  The result pairs the final PPU with the list of all
bytes written into the caller-supplied framebuffer.  Thresholds:
scanline 341 cycles, Idle 1, Render 256, SpriteFetch 64, PreFetch 16,
OtherFetch 4, visible lines 240, vblank 20*341 = 6820.  The SpriteFetch arm
hands over to `OtherFetch` (ppu.rs:368) — `PreFetch` is never entered — and
the Vblank arm sets the VBlank status bit 0x80 when crossing cycle 2. -/
def PPU.advanceF : Nat → PPU → Nat → Option (PPU × List Nat)
  | 0, _, _ => none
  | fuel + 1, p, cycles =>
    match p.state with
    | .PreRender cycle =>
      if cycle + cycles > 341 then
        PPU.advanceF fuel { p with state := .VisibleLines 0 (.Idle 0) }
          (cycle + cycles - 341)
      else some ({ p with state := .PreRender (cycle + cycles) }, [])
    | .VisibleLines line ls =>
      match ls with
      | .Idle cycle =>
        if cycle + cycles > 1 then
          PPU.advanceF fuel { p with state := .VisibleLines line (.Render 0) }
            (cycle + cycles - 1)
        else some ({ p with state := .VisibleLines line (.Idle (cycle + cycles)) }, [])
      | .Render cycle =>
        let w := p.renderWrites cycle cycles
        if cycle + cycles > 256 then
          (PPU.advanceF fuel { p with state := .VisibleLines line (.SpriteFetch 0) }
            (cycle + cycles - 256)).map (fun r => (r.1, w ++ r.2))
        else some ({ p with state := .VisibleLines line (.Render (cycle + cycles)) }, w)
      | .SpriteFetch cycle =>
        if cycle + cycles > 64 then
          PPU.advanceF fuel { p with state := .VisibleLines line (.OtherFetch 0) }
            (cycle + cycles - 64)
        else some ({ p with state := .VisibleLines line (.SpriteFetch (cycle + cycles)) }, [])
      | .PreFetch cycle =>
        if cycle + cycles > 16 then
          PPU.advanceF fuel { p with state := .VisibleLines line (.OtherFetch 0) }
            (cycle + cycles - 16)
        else some ({ p with state := .VisibleLines line (.PreFetch (cycle + cycles)) }, [])
      | .OtherFetch cycle =>
        if cycle + cycles > 4 then
          if line + 1 ≥ 240 then
            PPU.advanceF fuel { p with state := .PostRender 0 } (cycle + cycles - 4)
          else
            PPU.advanceF fuel { p with state := .VisibleLines (line + 1) (.Idle 0) }
              (cycle + cycles - 4)
        else some ({ p with state := .VisibleLines line (.OtherFetch (cycle + cycles)) }, [])
    | .PostRender cycle =>
      if cycle + cycles > 341 then
        PPU.advanceF fuel { p with state := .Vblank 0 } (cycle + cycles - 341)
      else some ({ p with state := .PostRender (cycle + cycles) }, [])
    | .Vblank cycle =>
      let next := cycle + cycles
      let p1 := if cycle < 2 ∧ next ≥ 2
                then { p with ppu_status := p.ppu_status ||| 0x80 } else p
      if next > 6820 then
        PPU.advanceF fuel { p1 with state := .PreRender 0 } (next - 6820)
      else some ({ p1 with state := .Vblank next }, [])

/-- The framebuffer bytes of an `advanceF` result (empty when out of fuel). -/
def writesOf (o : Option (PPU × List Nat)) : List Nat :=
  (o.map Prod.snd).getD []

/-! ## Memory bus (src/memory.rs) -/

/-- `RAM` (memory.rs:42-45): a byte buffer plus the bus address of its first
byte; `Index<u16>` subtracts the start address.  (The Rust subtraction and the
slice indexing can fault when `address < start_address` or past the end; every
access below stays in range.) -/
structure Bank where
  start_address : Nat
  file : Nat → Nat

/-- `Index<u16> for RAM` (memory.rs:83-88). -/
def Bank.get (b : Bank) (address : Nat) : Nat :=
  byteAt b.file (address - b.start_address)

/-- The `Memory` record (memory.rs:122-138); the two active-program pointers
are modelled by the banks they point at. -/
structure Memory where
  ram : Nat → Nat
  battery_ram : Option Bank
  active_program_1 : Bank
  active_program_2 : Bank
  ppu : PPU

/-- `Index<u16> for Memory` (memory.rs:140-158) together with the interior
latch mutation performed by `PPU::read`: the byte read and the memory
afterwards.  Region bounds are the source constants `MMIO = 0x2000`,
`EXPANSION_ROM = 0x4020`, `SRAM = 0x6000`, `PROGRAM_ROM = 0x8000`,
`PROGRAM_ROM_2 = 0xC000`; built-in RAM mirrors every 0x800 and the whole PPU
window `0x2000..0x4020` is handed to `PPU::read` with the raw address. -/
def Memory.readEff (m : Memory) (address : Nat) : Nat × Memory :=
  if address < 0x2000 then (byteAt m.ram (address % 0x800), m)
  else if address < 0x4020 then
    let vp := m.ppu.read address
    (vp.1, { m with ppu := vp.2 })
  else if address < 0x6000 then (0, m)
  else if address < 0x8000 then
    (match m.battery_ram with
     | some b => b.get address
     | none => 0, m)
  else if address < 0xC000 then (m.active_program_1.get address, m)
  else (m.active_program_2.get address, m)

/-- The value component of `Index<u16> for Memory`. -/
def Memory.read (m : Memory) (address : Nat) : Nat :=
  (m.readEff address).1

/-- `address_mmio_map` (memory.rs:34-40): register writes mirror every 8
bytes inside `0x2000..0x4000`; `0x4000..0x4020` maps to `address - 0x4000`. -/
def address_mmio_map (address : Nat) : Nat :=
  if 0x2000 ≤ address ∧ address < 0x4000 then (address - 0x2000) % 8
  else address - 0x4000

/-- `MMIO_WRITE_MAP` (memory.rs:19-31) as a dispatch on the index: slots
0,1,3,4,5,6,7 are the PPU setters, slot 2 keeps the `PPU::ignore` default.
(Indices ≥ 8 would be an out-of-bounds panic in Rust — they are unreachable
for addresses below 0x4008 and no claim touches the rest; the embedding
ignores them.) -/
def mmioWrite (idx : Nat) (p : PPU) (data : Nat) : PPU :=
  if idx = 0 then p.set_ppu_control_1 data
  else if idx = 1 then p.set_ppu_control_2 data
  else if idx = 3 then p.set_spr_ram_address data
  else if idx = 4 then p.write_spram data
  else if idx = 5 then p.set_scroll data
  else if idx = 6 then p.set_vram_address data
  else if idx = 7 then p.write_vram data
  else p.ignore data

/-- `Memory::write` (memory.rs:161-173): RAM mirrored every 0x800, the MMIO
window `0x2000..0x4020` dispatched through `MMIO_WRITE_MAP`, save RAM when
present, everything else silently discarded. -/
def Memory.write (m : Memory) (address data : Nat) : Memory :=
  if address < 0x2000 then
    { m with ram := updateFn m.ram (address % 0x800) (data % 256) }
  else if address < 0x4020 then
    { m with ppu := mmioWrite (address_mmio_map address) m.ppu data }
  else if address < 0x6000 then m
  else if address < 0x8000 then
    match m.battery_ram with
    | some b =>
      let b2 : Bank :=
        { b with file := updateFn b.file (address - b.start_address) (data % 256) }
      { m with battery_ram := some b2 }
    | none => m
  else m

/-- `Memory::from_program` (memory.rs:188-203): the (zero-extended) program
becomes one bank starting at `PROGRAM_ROM = 0x8000` and both active-program
pointers are aimed at it; RAM is zeroed, there is no battery RAM, and the PPU
is `PPU::new(vec![])`. -/
def Memory.from_program (program : Nat → Nat) : Memory :=
  let bank : Bank := { start_address := 0x8000, file := program }
  { ram := fun _ => 0
    battery_ram := none
    active_program_1 := bank
    active_program_2 := bank
    ppu := PPU.new }

/-! ## CPU (src/cpu.rs) -/

/-- The CPU record (cpu.rs:45-53); the `ProcessorStatusFlags` bitflags are one
`Bool` per bit (CARRY 0x01, ZERO 0x02, INTERRUPT 0x04, DECIMAL 0x08,
BREAK 0x10, UNUSED 0x20, OVERFLOW 0x40, NEGATIVE 0x80). -/
structure CPU where
  memory : Memory
  program_counter : Nat
  stack_pointer : Nat
  accumulator : Nat
  idx_register_x : Nat
  idx_register_y : Nat
  carry : Bool
  zero : Bool
  interrupt_flag : Bool
  decimal : Bool
  break_flag : Bool
  unused : Bool
  overflow : Bool
  negative : Bool

/-- `CPU::with_program` (cpu.rs:62-72): PC at `PROGRAM_ROM = 0x8000`, stack
pointer `STACK_RESET = 0xff`, all registers and flags zero. -/
def CPU.with_program (program : Nat → Nat) : CPU :=
  { memory := Memory.from_program program
    program_counter := 0x8000
    stack_pointer := 0xff
    accumulator := 0
    idx_register_x := 0
    idx_register_y := 0
    carry := false
    zero := false
    interrupt_flag := false
    decimal := false
    break_flag := false
    unused := false
    overflow := false
    negative := false }

/-- `CPU::update_negative_zero_flags` (cpu.rs:354-364), kept bit-for-bit: the
source clears Z and N and then recomputes both from `self.accumulator`,
ignoring the `test` argument entirely. -/
def CPU.update_negative_zero_flags (cpu : CPU) (test : Nat) : CPU :=
  { cpu with
    zero := decide (cpu.accumulator = 0)
    negative := decide (cpu.accumulator &&& 0x80 ≠ 0) }

/-- `transfer_gen!(transfer_a_x, accumulator, idx_register_x)` (cpu.rs:382). -/
def CPU.transfer_a_x (cpu : CPU) : CPU :=
  let c := { cpu with idx_register_x := cpu.accumulator }
  c.update_negative_zero_flags c.idx_register_x

/-- `transfer_gen!(transfer_x_a, idx_register_x, accumulator)` (cpu.rs:383). -/
def CPU.transfer_x_a (cpu : CPU) : CPU :=
  let c := { cpu with accumulator := cpu.idx_register_x }
  c.update_negative_zero_flags c.accumulator

/-- `transfer_gen!(transfer_a_y, accumulator, idx_register_y)` (cpu.rs:384). -/
def CPU.transfer_a_y (cpu : CPU) : CPU :=
  let c := { cpu with idx_register_y := cpu.accumulator }
  c.update_negative_zero_flags c.idx_register_y

/-- `transfer_gen!(transfer_y_a, idx_register_y, accumulator)` (cpu.rs:385). -/
def CPU.transfer_y_a (cpu : CPU) : CPU :=
  let c := { cpu with accumulator := cpu.idx_register_y }
  c.update_negative_zero_flags c.accumulator

/-- `transfer_gen!(transfer_sp_x, stack_pointer, idx_register_x)`
(cpu.rs:386) — the TSX instruction. -/
def CPU.transfer_sp_x (cpu : CPU) : CPU :=
  let c := { cpu with idx_register_x := cpu.stack_pointer }
  c.update_negative_zero_flags c.idx_register_x

/-- `CPU::transfer_x_sp` (cpu.rs:249-251) — TXS, no flag update. -/
def CPU.transfer_x_sp (cpu : CPU) : CPU :=
  { cpu with stack_pointer := cpu.idx_register_x }

/-- `CPU::get_immediate` (cpu.rs:154-158). -/
def CPU.get_immediate (cpu : CPU) : Nat × CPU :=
  (cpu.program_counter, { cpu with program_counter := cpu.program_counter + 1 })

/-- `CPU::get_zero_page` (cpu.rs:160-165). -/
def CPU.get_zero_page (cpu : CPU) : Nat × CPU :=
  let vm := cpu.memory.readEff cpu.program_counter
  (vm.1, { cpu with memory := vm.2, program_counter := cpu.program_counter + 1 })

/-- `CPU::get_zero_page_x` (cpu.rs:167-172): `u8::wrapping_add` of the operand
byte and X. -/
def CPU.get_zero_page_x (cpu : CPU) : Nat × CPU :=
  let vm := cpu.memory.readEff cpu.program_counter
  ((vm.1 + cpu.idx_register_x) % 256,
   { cpu with memory := vm.2, program_counter := cpu.program_counter + 1 })

/-- `CPU::get_zero_page_y` (cpu.rs:174-179). -/
def CPU.get_zero_page_y (cpu : CPU) : Nat × CPU :=
  let vm := cpu.memory.readEff cpu.program_counter
  ((vm.1 + cpu.idx_register_y) % 256,
   { cpu with memory := vm.2, program_counter := cpu.program_counter + 1 })

/-- `CPU::get_zero_page_x_indirect` (cpu.rs:181-186): pointer
`(bus[PC] + X) mod 256`, address little-endian from `bus[ptr]`, `bus[ptr+1]`. -/
def CPU.get_zero_page_x_indirect (cpu : CPU) : Nat × CPU :=
  let vm := cpu.memory.readEff cpu.program_counter
  let ind := (vm.1 + cpu.idx_register_x) % 256
  let lo := vm.2.readEff ind
  let hi := lo.2.readEff (ind + 1)
  (lo.1 + 256 * hi.1,
   { cpu with memory := hi.2, program_counter := cpu.program_counter + 1 })

/-- `CPU::get_zero_page_y_indirect` (cpu.rs:188-193): base little-endian from
`bus[ptr]`, `bus[ptr+1]`, then `wrapping_add` of Y (16-bit). -/
def CPU.get_zero_page_y_indirect (cpu : CPU) : Nat × CPU :=
  let vm := cpu.memory.readEff cpu.program_counter
  let lo := vm.2.readEff vm.1
  let hi := lo.2.readEff (vm.1 + 1)
  ((lo.1 + 256 * hi.1 + cpu.idx_register_y) % 65536,
   { cpu with memory := hi.2, program_counter := cpu.program_counter + 1 })

/-- `CPU::get_absolute` (cpu.rs:195-203): little-endian operand at PC, PC+1;
PC advances by 2. -/
def CPU.get_absolute (cpu : CPU) : Nat × CPU :=
  let lo := cpu.memory.readEff cpu.program_counter
  let hi := lo.2.readEff (cpu.program_counter + 1)
  (lo.1 + 256 * hi.1,
   { cpu with memory := hi.2, program_counter := cpu.program_counter + 2 })

/-- `CPU::get_absolute_x` (cpu.rs:205-208): `wrapping_add` of X (16-bit). -/
def CPU.get_absolute_x (cpu : CPU) : Nat × CPU :=
  let base := cpu.get_absolute
  ((base.1 + cpu.idx_register_x) % 65536, base.2)

/-- `CPU::get_absolute_y` (cpu.rs:210-213). -/
def CPU.get_absolute_y (cpu : CPU) : Nat × CPU :=
  let base := cpu.get_absolute
  ((base.1 + cpu.idx_register_y) % 65536, base.2)

/-- `CPU::get_stack` (cpu.rs:231-233): `stack_pointer + STACK_OFFSET`
(`STACK_OFFSET = 0x0100`). -/
def CPU.get_stack (cpu : CPU) : Nat := cpu.stack_pointer + 0x100

/-- `CPU::push_stack` (cpu.rs:236-239): write at the stack address, then
`wrapping_sub(1)` on the 8-bit stack pointer. -/
def CPU.push_stack (cpu : CPU) (data : Nat) : CPU :=
  { cpu with
    memory := cpu.memory.write cpu.get_stack data
    stack_pointer := (cpu.stack_pointer + 255) % 256 }

/-- `CPU::pop_stack` (cpu.rs:242-245): `wrapping_add(1)` on the 8-bit stack
pointer, then read at the new stack address. -/
def CPU.pop_stack (cpu : CPU) : Nat × CPU :=
  let sp := (cpu.stack_pointer + 1) % 256
  let vm := cpu.memory.readEff (sp + 0x100)
  (vm.1, { cpu with stack_pointer := sp, memory := vm.2 })

/-- `CPU::jump_subroutine` (cpu.rs:306-311): push the bytes of
`program_counter + 1` high-byte-first, then jump to the absolute operand.
(The handler runs after `advance` already stepped PC past the opcode, so for
a JSR at address `a` the pushed value is `a + 2`, the address of the last
operand byte.) -/
def CPU.jump_subroutine (cpu : CPU) : CPU :=
  let pc := cpu.program_counter + 1
  let c1 := cpu.push_stack (pc / 256 % 256)
  let c2 := c1.push_stack (pc % 256)
  let addr := c2.get_absolute
  { addr.2 with program_counter := addr.1 }

/-- `CPU::return_from_subroutine` (cpu.rs:313-317): pop the low byte, pop the
high byte, set PC to the little-endian value plus one. -/
def CPU.return_from_subroutine (cpu : CPU) : CPU :=
  let lo := cpu.pop_stack
  let hi := lo.2.pop_stack
  { hi.2 with program_counter := lo.1 + 256 * hi.1 + 1 }

/-- The shared body of `add_with_carry_gen!` (cpu.rs:586-619) once the
effective address is computed: two `overflowing_add`s, carry from either
step, signed overflow `(A ^ sum) & (M ^ sum) & 0x80 != 0` against the old
accumulator, then the N/Z helper on the new accumulator. -/
def CPU.adcBody (cpu0 : CPU) (address : Nat) : CPU :=
  let vm := cpu0.memory.readEff address
  let cpu := { cpu0 with memory := vm.2 }
  let data := vm.1
  let carry := if cpu.carry then 1 else 0
  let sum1 := (cpu.accumulator + data) % 256
  let carry1 := decide (256 ≤ cpu.accumulator + data)
  let sum := (sum1 + carry) % 256
  let carry2 := decide (256 ≤ sum1 + carry)
  let signed_overflow :=
    decide ((cpu.accumulator ^^^ sum) &&& (data ^^^ sum) &&& 0x80 ≠ 0)
  let c1 := { cpu with carry := carry1 || carry2, overflow := signed_overflow,
                       accumulator := sum }
  c1.update_negative_zero_flags c1.accumulator

/-- `add_with_carry_gen!(adc_immediate, CPU::get_immediate)` (cpu.rs:621). -/
def CPU.adc_immediate (cpu : CPU) : CPU :=
  let a := cpu.get_immediate; CPU.adcBody a.2 a.1

/-- `add_with_carry_gen!(adc_absolute, CPU::get_absolute)` (cpu.rs:622). -/
def CPU.adc_absolute (cpu : CPU) : CPU :=
  let a := cpu.get_absolute; CPU.adcBody a.2 a.1

/-- `add_with_carry_gen!(adc_absolute_x, CPU::get_absolute_x)` (cpu.rs:623). -/
def CPU.adc_absolute_x (cpu : CPU) : CPU :=
  let a := cpu.get_absolute_x; CPU.adcBody a.2 a.1

/-- `add_with_carry_gen!(adc_absolute_y, CPU::get_absolute_y)` (cpu.rs:624). -/
def CPU.adc_absolute_y (cpu : CPU) : CPU :=
  let a := cpu.get_absolute_y; CPU.adcBody a.2 a.1

/-- `add_with_carry_gen!(adc_zero_page, CPU::get_zero_page)` (cpu.rs:625). -/
def CPU.adc_zero_page (cpu : CPU) : CPU :=
  let a := cpu.get_zero_page; CPU.adcBody a.2 a.1

/-- `add_with_carry_gen!(adc_zero_page_x, CPU::get_zero_page_x)` (cpu.rs:626). -/
def CPU.adc_zero_page_x (cpu : CPU) : CPU :=
  let a := cpu.get_zero_page_x; CPU.adcBody a.2 a.1

/-- `add_with_carry_gen!(adc_zero_page_x_indirect, ...)` (cpu.rs:627). -/
def CPU.adc_zero_page_x_indirect (cpu : CPU) : CPU :=
  let a := cpu.get_zero_page_x_indirect; CPU.adcBody a.2 a.1

/-- `add_with_carry_gen!(adc_zero_page_y_indirect, ...)` (cpu.rs:628). -/
def CPU.adc_zero_page_y_indirect (cpu : CPU) : CPU :=
  let a := cpu.get_zero_page_y_indirect; CPU.adcBody a.2 a.1

/-- The shared body of `subtract_with_carry_gen!` (cpu.rs:633-665): sum is
`A + !M + C` with two `wrapping_add`s, the carry is cleared when
`A <= sum` and set otherwise, signed overflow `(A ^ sum) & (!M ^ sum) & 0x80`,
then the N/Z helper on the new accumulator. -/
def CPU.sbcBody (cpu0 : CPU) (address : Nat) : CPU :=
  let vm := cpu0.memory.readEff address
  let cpu := { cpu0 with memory := vm.2 }
  let data := vm.1
  let carry := if cpu.carry then 1 else 0
  let nd := data ^^^ 0xff
  let sum := ((cpu.accumulator + nd) % 256 + carry) % 256
  let borrow_carry := !(decide (cpu.accumulator ≤ sum))
  let signed_overflow :=
    decide ((cpu.accumulator ^^^ sum) &&& (nd ^^^ sum) &&& 0x80 ≠ 0)
  let c1 := { cpu with carry := borrow_carry, overflow := signed_overflow,
                       accumulator := sum }
  c1.update_negative_zero_flags c1.accumulator

/-- `subtract_with_carry_gen!(sbc_immediate, CPU::get_immediate)`
(cpu.rs:666). -/
def CPU.sbc_immediate (cpu : CPU) : CPU :=
  let a := cpu.get_immediate; CPU.sbcBody a.2 a.1

/-- `subtract_with_carry_gen!(sbc_absolute, CPU::get_absolute)` (cpu.rs:667). -/
def CPU.sbc_absolute (cpu : CPU) : CPU :=
  let a := cpu.get_absolute; CPU.sbcBody a.2 a.1

/-- Models `self.program_counter += 1` in `CPU::advance` (cpu.rs:150) under
the checked `u16` arithmetic of an overflow-checked build. -/
def CPU.advance_pc_checked (cpu : CPU) : Option Nat :=
  u16AddChecked cpu.program_counter 1

/-- Models the operand fetch `self.memory[self.program_counter + 1]` of
`CPU::get_absolute` (cpu.rs:198) under checked `u16` arithmetic: the address
of the high operand byte, or a panic. -/
def CPU.absolute_high_addr_checked (cpu : CPU) : Option Nat :=
  u16AddChecked cpu.program_counter 1

/-- Models `self.program_counter += 1` in the not-taken arm of `branch_gen!`
(cpu.rs:433 / 441) under checked `u16` arithmetic. -/
def CPU.branch_not_taken_checked (cpu : CPU) : Option Nat :=
  u16AddChecked cpu.program_counter 1

/-! ## Statement predicates -/

/-- The ADC contract of the specification, relating a pre-state `s`, the
post-state `sf` and the memory operand `M`: the accumulator becomes
`(A + M + C) mod 256`, carry is set exactly on unsigned overflow, overflow is
`(A ^ result) & (M ^ result) & 0x80 ≠ 0`, and N/Z come from the result
byte. -/
def ADCPost (s sf : CPU) (M : Nat) : Prop :=
  sf.accumulator = (s.accumulator + M + (if s.carry then 1 else 0)) % 256 ∧
  (sf.carry = true ↔ 256 ≤ s.accumulator + M + (if s.carry then 1 else 0)) ∧
  (sf.overflow = true ↔
    (s.accumulator ^^^ sf.accumulator) &&& (M ^^^ sf.accumulator) &&& 0x80 ≠ 0) ∧
  (sf.zero = true ↔ sf.accumulator = 0) ∧
  (sf.negative = true ↔ sf.accumulator &&& 0x80 ≠ 0)

/-- The ADC contract for all eight addressing-mode variants of the opcode
map, with the operand taken at the effective address each mode computes. -/
def ADCAllModes (cpu : CPU) : Prop :=
  ADCPost cpu cpu.adc_immediate (cpu.memory.read (cpu.get_immediate).1) ∧
  ADCPost cpu cpu.adc_absolute (cpu.memory.read (cpu.get_absolute).1) ∧
  ADCPost cpu cpu.adc_absolute_x (cpu.memory.read (cpu.get_absolute_x).1) ∧
  ADCPost cpu cpu.adc_absolute_y (cpu.memory.read (cpu.get_absolute_y).1) ∧
  ADCPost cpu cpu.adc_zero_page (cpu.memory.read (cpu.get_zero_page).1) ∧
  ADCPost cpu cpu.adc_zero_page_x (cpu.memory.read (cpu.get_zero_page_x).1) ∧
  ADCPost cpu cpu.adc_zero_page_x_indirect
    (cpu.memory.read (cpu.get_zero_page_x_indirect).1) ∧
  ADCPost cpu cpu.adc_zero_page_y_indirect
    (cpu.memory.read (cpu.get_zero_page_y_indirect).1)

/-- The JSR/RTS contract of the specification for a JSR located at address
`a` (so the handler starts with `PC = a + 1`): the pushed return address is
`a + 2` stored high-byte-first, the stack pointer drops by two, PC becomes
the little-endian operand, and an RTS executed from any state `s2` whose
stack pointer and two stack slots still hold what JSR left there resumes at
`a + 3` with the stack pointer restored. -/
def JsrRtsPost (s s2 : CPU) (a : Nat) : Prop :=
  s.jump_subroutine.memory.read (s.stack_pointer + 0x100) = (a + 2) / 256 ∧
  s.jump_subroutine.memory.read ((s.stack_pointer + 255) % 256 + 0x100)
    = (a + 2) % 256 ∧
  s.jump_subroutine.stack_pointer = (s.stack_pointer + 254) % 256 ∧
  s.jump_subroutine.program_counter
    = s.memory.read (a + 1) + 256 * s.memory.read (a + 2) ∧
  s2.return_from_subroutine.program_counter = a + 3 ∧
  s2.return_from_subroutine.stack_pointer = s.stack_pointer

/-! ## Concrete fixtures -/

/-- A CPU loaded with the all-zero program (`CPU::with_program` of zeroes). -/
def zeroCpu : CPU := CPU.with_program (fun _ => 0)

/-- Fixture for the TSX flag bug: accumulator 0, stack pointer 0x80. -/
def tsxCpu : CPU := { zeroCpu with stack_pointer := 0x80 }

/-- SBC fixture: A = 0, C = 1, operand byte `bus[0x8000] = 0`. -/
def sbcCpu : CPU := { zeroCpu with carry := true }

/-- ADC fixture: A = 0, C = 1, operand byte `bus[0x8000] = 255 = 255 - 0`. -/
def adcCpu : CPU := { CPU.with_program (fun _ => 255) with carry := true }

/-- A freshly constructed bus (`Memory::from_program` of the zero program). -/
def mem0 : Memory := Memory.from_program (fun _ => 0)

/-- The same bus with the PPU write latch in the expecting-low-byte state. -/
def memLatchLow : Memory := { mem0 with ppu := { mem0.ppu with byte_shift := 0 } }

/-- First write of the C7 scenario: 0x21 to register 6 (bus 0x2006). -/
def vramW1 : Memory := mem0.write 0x2006 0x21

/-- Second write of the C7 scenario: 0x55 to register 6. -/
def vramW2 : Memory := vramW1.write 0x2006 0x55

/-- Third write of the C7 scenario: data 0x99 to register 7 (bus 0x2007). -/
def vramW3 : Memory := vramW2.write 0x2007 0x99

/-- A PPU at the start of the SpriteFetch phase of visible line 0. -/
def spritePpu : PPU := { PPU.new with state := .VisibleLines 0 (.SpriteFetch 0) }

/-- A PPU at the very start of visible line 0. -/
def linePpu : PPU := { PPU.new with state := .VisibleLines 0 (.Idle 0) }

/-- A PPU one cycle before entering PreRender, with the VBlank, sprite-0-hit
and overflow status bits (0x80, 0x40, 0x20) all set. -/
def vblankEndPpu : PPU := { PPU.new with state := .Vblank 6820, ppu_status := 0xE0 }

/-- A PPU at the start of the Render phase of visible line 0. -/
def renderPpu : PPU := { PPU.new with state := .VisibleLines 0 (.Render 0) }

/-- CPU about to execute the JSR handler for a JSR opcode at 0x8000. -/
def jsrCpu : CPU := { zeroCpu with program_counter := 0x8001, stack_pointer := 0xFD }

/-- A CPU whose PC sits at the top of the address space. -/
def topPcCpu : CPU := { zeroCpu with program_counter := 0xFFFF }

/-! ## Helper lemmas -/

/-- Every bus read yields a byte. -/
theorem Memory.read_lt_256 (m : Memory) (a : Nat) : m.read a < 256 := by
  unfold Memory.read Memory.readEff PPU.read Bank.get byteAt
  rcases h : m.battery_ram with _ | b <;> split_ifs <;> simp <;> omega

/-- A bus read changes at most the PPU write latch. -/
theorem Memory.readEff_snd_cases (m : Memory) (a : Nat) :
    (m.readEff a).2 = m ∨
    (m.readEff a).2 = { m with ppu := { m.ppu with byte_shift := 8 } } := by
  unfold Memory.readEff PPU.read
  split_ifs <;> simp

/-- Changing the PPU write latch does not change any read value. -/
theorem Memory.read_set_shift (m : Memory) (s b : Nat) :
    ({ m with ppu := { m.ppu with byte_shift := s } } : Memory).read b = m.read b := by
  unfold Memory.read Memory.readEff PPU.read
  split_ifs <;> rfl

/-- Read values are untouched by the interior latch effect of another read. -/
theorem Memory.read_readEff_snd (m : Memory) (a b : Nat) :
    (m.readEff a).2.read b = m.read b := by
  rcases Memory.readEff_snd_cases m a with h | h <;> rw [h]
  exact Memory.read_set_shift m 8 b

/-- Reading back a RAM write through the 2 KiB mirror returns the byte. -/
theorem Memory.read_write_ram_eq (m : Memory) (a b d : Nat)
    (ha : a < 0x2000) (hb : b < 0x2000) (hab : b % 0x800 = a % 0x800) :
    (m.write a d).read b = d % 256 := by
  unfold Memory.write Memory.read Memory.readEff byteAt updateFn
  split_ifs <;> simp_all <;> omega

/-- A RAM write leaves every non-aliased RAM read unchanged. -/
theorem Memory.read_write_ram_ne (m : Memory) (a b d : Nat)
    (ha : a < 0x2000) (hb : b < 0x2000) (hab : b % 0x800 ≠ a % 0x800) :
    (m.write a d).read b = m.read b := by
  unfold Memory.write Memory.read Memory.readEff byteAt updateFn
  split_ifs <;> simp_all

/-- A RAM write leaves program-ROM reads unchanged. -/
theorem Memory.read_write_ram_rom (m : Memory) (a b d : Nat)
    (ha : a < 0x2000) (hb : 0x8000 ≤ b) :
    (m.write a d).read b = m.read b := by
  unfold Memory.write Memory.read Memory.readEff
  split_ifs <;> first | rfl | omega

/-- A RAM write leaves the stack pointer-free parts alone: the PPU and banks
are untouched, so any later structure on them matches.  (Projection form used
by the JSR proof.) -/
theorem Memory.write_ram_ppu (m : Memory) (a d : Nat) (ha : a < 0x2000) :
    (m.write a d).ppu = m.ppu := by
  unfold Memory.write
  split_ifs <;> rfl

/-- `get_zero_page` only moves PC and the interior latch: reads agree. -/
theorem CPU.get_zero_page_read (cpu : CPU) (b : Nat) :
    (cpu.get_zero_page).2.memory.read b = cpu.memory.read b := by
  simp [CPU.get_zero_page, Memory.read_readEff_snd]

/-- `get_zero_page_x`: reads agree. -/
theorem CPU.get_zero_page_x_read (cpu : CPU) (b : Nat) :
    (cpu.get_zero_page_x).2.memory.read b = cpu.memory.read b := by
  simp [CPU.get_zero_page_x, Memory.read_readEff_snd]

/-- `get_zero_page_x_indirect`: reads agree. -/
theorem CPU.get_zero_page_x_indirect_read (cpu : CPU) (b : Nat) :
    (cpu.get_zero_page_x_indirect).2.memory.read b = cpu.memory.read b := by
  simp [CPU.get_zero_page_x_indirect, Memory.read_readEff_snd]

/-- `get_zero_page_y_indirect`: reads agree. -/
theorem CPU.get_zero_page_y_indirect_read (cpu : CPU) (b : Nat) :
    (cpu.get_zero_page_y_indirect).2.memory.read b = cpu.memory.read b := by
  simp [CPU.get_zero_page_y_indirect, Memory.read_readEff_snd]

/-- `get_absolute`: reads agree. -/
theorem CPU.get_absolute_read (cpu : CPU) (b : Nat) :
    (cpu.get_absolute).2.memory.read b = cpu.memory.read b := by
  simp [CPU.get_absolute, Memory.read_readEff_snd]

/-- `get_absolute_x`: reads agree. -/
theorem CPU.get_absolute_x_read (cpu : CPU) (b : Nat) :
    (cpu.get_absolute_x).2.memory.read b = cpu.memory.read b := by
  simp [CPU.get_absolute_x, CPU.get_absolute, Memory.read_readEff_snd]

/-- `get_absolute_y`: reads agree. -/
theorem CPU.get_absolute_y_read (cpu : CPU) (b : Nat) :
    (cpu.get_absolute_y).2.memory.read b = cpu.memory.read b := by
  simp [CPU.get_absolute_y, CPU.get_absolute, Memory.read_readEff_snd]

/-- The shared body of the ADC macro satisfies the ADC contract with the
operand read at the effective address. -/
theorem CPU.adcBody_spec (cpu : CPU) (addr : Nat) (hA : cpu.accumulator < 256) :
    ADCPost cpu (cpu.adcBody addr) (cpu.memory.read addr) := by
  have hM : cpu.memory.read addr < 256 := Memory.read_lt_256 cpu.memory addr
  have hc : (if cpu.carry then 1 else 0) ≤ 1 := by rcases cpu.carry <;> simp
  refine ⟨?_, ?_, ?_, ?_, ?_⟩
  · show ((cpu.accumulator + cpu.memory.read addr) % 256 +
        (if cpu.carry then 1 else 0)) % 256
        = (cpu.accumulator + cpu.memory.read addr + (if cpu.carry then 1 else 0)) % 256
    omega
  · show (decide (256 ≤ cpu.accumulator + cpu.memory.read addr)
        || decide (256 ≤ (cpu.accumulator + cpu.memory.read addr) % 256 +
            (if cpu.carry then 1 else 0))) = true
        ↔ 256 ≤ cpu.accumulator + cpu.memory.read addr + (if cpu.carry then 1 else 0)
    rw [Bool.or_eq_true, decide_eq_true_eq, decide_eq_true_eq]
    omega
  · exact decide_eq_true_iff
  · exact decide_eq_true_iff
  · exact decide_eq_true_iff

/-- C3: every ADC variant computes `(A + M + C) mod 256`, carry on unsigned
overflow, overflow `(A ^ result) & (M ^ result) & 0x80 != 0`, and N/Z from
the result byte, for every CPU state with a byte-valued accumulator. -/
theorem C3_adc_all_modes (cpu : CPU) (hA : cpu.accumulator < 256) :
    ADCAllModes cpu := by
  refine ⟨?_, ?_, ?_, ?_, ?_, ?_, ?_, ?_⟩
  · exact CPU.adcBody_spec (cpu.get_immediate).2 (cpu.get_immediate).1 hA
  · have h := CPU.adcBody_spec (cpu.get_absolute).2 (cpu.get_absolute).1 hA
    rwa [CPU.get_absolute_read] at h
  · have h := CPU.adcBody_spec (cpu.get_absolute_x).2 (cpu.get_absolute_x).1 hA
    rwa [CPU.get_absolute_x_read] at h
  · have h := CPU.adcBody_spec (cpu.get_absolute_y).2 (cpu.get_absolute_y).1 hA
    rwa [CPU.get_absolute_y_read] at h
  · have h := CPU.adcBody_spec (cpu.get_zero_page).2 (cpu.get_zero_page).1 hA
    rwa [CPU.get_zero_page_read] at h
  · have h := CPU.adcBody_spec (cpu.get_zero_page_x).2 (cpu.get_zero_page_x).1 hA
    rwa [CPU.get_zero_page_x_read] at h
  · have h := CPU.adcBody_spec (cpu.get_zero_page_x_indirect).2
      (cpu.get_zero_page_x_indirect).1 hA
    rwa [CPU.get_zero_page_x_indirect_read] at h
  · have h := CPU.adcBody_spec (cpu.get_zero_page_y_indirect).2
      (cpu.get_zero_page_y_indirect).1 hA
    rwa [CPU.get_zero_page_y_indirect_read] at h

/-- Witness for C3 at the concrete reset CPU of the zero program. -/
theorem C3_adc_all_modes_witness :
    zeroCpu.accumulator < 256 ∧ ADCAllModes zeroCpu :=
  ⟨by decide, C3_adc_all_modes zeroCpu (by decide)⟩

/-- Read value form of `Memory.read_readEff_snd`, for rewriting inside
unfolded reads. -/
theorem Memory.readEff_snd_fst (m : Memory) (a b : Nat) :
    ((m.readEff a).2.readEff b).1 = (m.readEff b).1 :=
  Memory.read_readEff_snd m a b

/-- `jump_subroutine` reads: the memory afterwards reads exactly like the
memory after the two stack writes (the operand fetch only touches the
interior latch). -/
theorem CPU.jump_subroutine_read (s : CPU) (b : Nat) :
    s.jump_subroutine.memory.read b
      = ((s.memory.write (s.stack_pointer + 0x100) ((s.program_counter + 1) / 256 % 256)).write
          ((s.stack_pointer + 255) % 256 + 0x100) ((s.program_counter + 1) % 256)).read b := by
  unfold Memory.read
  simp only [CPU.jump_subroutine, CPU.push_stack, CPU.get_absolute, CPU.get_stack,
    Memory.readEff_snd_fst]

/-- `jump_subroutine` drops the stack pointer twice (wrapping). -/
theorem CPU.jump_subroutine_sp (s : CPU) :
    s.jump_subroutine.stack_pointer = ((s.stack_pointer + 255) % 256 + 255) % 256 := by
  simp only [CPU.jump_subroutine, CPU.push_stack, CPU.get_absolute, CPU.get_stack]

/-- `jump_subroutine` sets PC to the little-endian operand, read after the
two stack writes. -/
theorem CPU.jump_subroutine_pc (s : CPU) :
    s.jump_subroutine.program_counter
      = ((s.memory.write (s.stack_pointer + 0x100) ((s.program_counter + 1) / 256 % 256)).write
          ((s.stack_pointer + 255) % 256 + 0x100) ((s.program_counter + 1) % 256)).read
          s.program_counter
        + 256 * ((s.memory.write (s.stack_pointer + 0x100)
              ((s.program_counter + 1) / 256 % 256)).write
            ((s.stack_pointer + 255) % 256 + 0x100) ((s.program_counter + 1) % 256)).read
            (s.program_counter + 1) := by
  unfold Memory.read
  simp only [CPU.jump_subroutine, CPU.push_stack, CPU.get_absolute, CPU.get_stack,
    Memory.readEff_snd_fst]

/-- `return_from_subroutine` computes PC from the two popped bytes, low byte
first, plus one. -/
theorem CPU.return_from_subroutine_pc (s2 : CPU) :
    s2.return_from_subroutine.program_counter
      = s2.memory.read ((s2.stack_pointer + 1) % 256 + 0x100)
        + 256 * s2.memory.read (((s2.stack_pointer + 1) % 256 + 1) % 256 + 0x100) + 1 := by
  unfold Memory.read
  simp only [CPU.return_from_subroutine, CPU.pop_stack, Memory.readEff_snd_fst]

/-- `return_from_subroutine` raises the stack pointer twice (wrapping). -/
theorem CPU.return_from_subroutine_sp (s2 : CPU) :
    s2.return_from_subroutine.stack_pointer = ((s2.stack_pointer + 1) % 256 + 1) % 256 := by
  simp only [CPU.return_from_subroutine, CPU.pop_stack]

/-- C4: JSR pushes the return address (the address of its last operand byte,
`a + 2`) high-byte-first, drops SP by two and jumps to the little-endian
operand; RTS pops low byte then high byte and resumes at the popped value
plus one, i.e. at `a + 3`, restoring the stack pointer — for every CPU state
`s` entering the JSR handler (PC = a + 1) with the JSR inside the ROM window
and below the top of memory, and every state `s2` executing RTS with a
balanced stack (same SP, same two stack bytes as JSR left). -/
theorem C4_jsr_rts (s s2 : CPU) (a : Nat)
    (ha1 : 0x8000 ≤ a) (ha2 : a ≤ 0xFFFC)
    (hpc : s.program_counter = a + 1)
    (hsp : s.stack_pointer < 256)
    (hbsp : s2.stack_pointer = s.jump_subroutine.stack_pointer)
    (hb1 : s2.memory.read (s.stack_pointer + 0x100)
        = s.jump_subroutine.memory.read (s.stack_pointer + 0x100))
    (hb2 : s2.memory.read ((s.stack_pointer + 255) % 256 + 0x100)
        = s.jump_subroutine.memory.read ((s.stack_pointer + 255) % 256 + 0x100)) :
    JsrRtsPost s s2 a := by
  have haddr1 : s.stack_pointer + 0x100 < 0x2000 := by omega
  have haddr2 : (s.stack_pointer + 255) % 256 + 0x100 < 0x2000 := by omega
  have hne : (s.stack_pointer + 0x100) % 0x800
      ≠ ((s.stack_pointer + 255) % 256 + 0x100) % 0x800 := by omega
  have h1 : s.jump_subroutine.memory.read (s.stack_pointer + 0x100) = (a + 2) / 256 := by
    rw [CPU.jump_subroutine_read, hpc, show a + 1 + 1 = a + 2 by omega,
      Memory.read_write_ram_ne _ _ _ _ haddr2 haddr1 hne,
      Memory.read_write_ram_eq _ _ _ _ haddr1 haddr1 rfl]
    omega
  have h2 : s.jump_subroutine.memory.read ((s.stack_pointer + 255) % 256 + 0x100)
      = (a + 2) % 256 := by
    rw [CPU.jump_subroutine_read, hpc, show a + 1 + 1 = a + 2 by omega,
      Memory.read_write_ram_eq _ _ _ _ haddr2 haddr2 rfl]
    omega
  have h3 : s.jump_subroutine.stack_pointer = (s.stack_pointer + 254) % 256 := by
    rw [CPU.jump_subroutine_sp]
    omega
  have hb1m : ((s.memory.write (s.stack_pointer + 0x100) ((a + 2) / 256 % 256)).write
      ((s.stack_pointer + 255) % 256 + 0x100) ((a + 2) % 256)).read (a + 1)
      = s.memory.read (a + 1) := by
    rw [Memory.read_write_ram_rom _ _ _ _ haddr2 (by omega),
      Memory.read_write_ram_rom _ _ _ _ haddr1 (by omega)]
  have hb2m : ((s.memory.write (s.stack_pointer + 0x100) ((a + 2) / 256 % 256)).write
      ((s.stack_pointer + 255) % 256 + 0x100) ((a + 2) % 256)).read (a + 2)
      = s.memory.read (a + 2) := by
    rw [Memory.read_write_ram_rom _ _ _ _ haddr2 (by omega),
      Memory.read_write_ram_rom _ _ _ _ haddr1 (by omega)]
  have h4 : s.jump_subroutine.program_counter
      = s.memory.read (a + 1) + 256 * s.memory.read (a + 2) := by
    rw [CPU.jump_subroutine_pc, hpc, show a + 1 + 1 = a + 2 by omega, hb1m, hb2m]
  have hs2sp : s2.stack_pointer = (s.stack_pointer + 254) % 256 := by rw [hbsp, h3]
  have e2 : ((s2.stack_pointer + 1) % 256 + 1) % 256 = s.stack_pointer := by omega
  have e1 : (s2.stack_pointer + 1) % 256 = (s.stack_pointer + 255) % 256 := by omega
  have h5 : s2.return_from_subroutine.program_counter = a + 3 := by
    have e := CPU.return_from_subroutine_pc s2
    rw [e2, e1, hb2, hb1, h1, h2] at e
    rw [e]
    omega
  have h6 : s2.return_from_subroutine.stack_pointer = s.stack_pointer := by
    rw [CPU.return_from_subroutine_sp]
    omega
  exact ⟨h1, h2, h3, h4, h5, h6⟩

/-- Witness for C4: a JSR at 0x8000 in the zero program (operand 0x0000),
with the RTS state taken to be exactly the post-JSR state. -/
theorem C4_jsr_rts_witness :
    jsrCpu.program_counter = 0x8000 + 1 ∧ JsrRtsPost jsrCpu jsrCpu.jump_subroutine 0x8000 :=
  ⟨rfl, C4_jsr_rts jsrCpu jsrCpu.jump_subroutine 0x8000 (by decide) (by decide) rfl
    (by decide) rfl rfl rfl⟩

/-- Every entry of the palette table is the zero triple (or the totalising
default, which is empty). -/
theorem PALETTE_getD (i : Nat) :
    PALETTE.getD i [] = [0, 0, 0] ∨ PALETTE.getD i [] = [] := by
  unfold PALETTE
  by_cases h : i < 64
  · left
    rw [List.getD_eq_getElem?_getD, List.getElem?_replicate, if_pos h]
    rfl
  · right
    rw [List.getD_eq_getElem?_getD, List.getElem?_replicate, if_neg h]
    rfl

/-- Every byte `write_rgb_row` emits is a component of a palette entry, and
the palette is all zeros. -/
theorem writeRgbRow_zero (data : Nat → Nat) (row upperBits x : Nat)
    (hx : x ∈ writeRgbRow data row upperBits) : x = 0 := by
  unfold writeRgbRow at hx
  rw [List.mem_flatten] at hx
  obtain ⟨l, hl, hxl⟩ := hx
  rw [List.mem_map] at hl
  obtain ⟨j, _, rfl⟩ := hl
  rcases PALETTE_getD (upperBits ||| getPixel data row j) with h | h <;> rw [h] at hxl <;>
    simp at hxl
  rcases hxl with h | h | h <;> omega

/-- Every byte a render burst emits is zero. -/
theorem burstWrites_zero (p : PPU) (next x : Nat) (hx : x ∈ p.burstWrites next) :
    x = 0 := by
  unfold PPU.burstWrites at hx
  exact writeRgbRow_zero _ _ _ _ hx

/-- Every byte the Render-phase loop emits is zero. -/
theorem renderWrites_zero (p : PPU) (cycle cycles x : Nat)
    (hx : x ∈ p.renderWrites cycle cycles) : x = 0 := by
  unfold PPU.renderWrites at hx
  rw [List.mem_flatten] at hx
  obtain ⟨l, hl, hxl⟩ := hx
  rw [List.mem_map] at hl
  obtain ⟨i, _, rfl⟩ := hl
  exact burstWrites_zero p (8 * i) x hxl

/-- Membership in the write list of a transition out of the Render phase
splits into the current burst writes and the recursive writes. -/
theorem writesOf_map_append (o : Option (PPU × List Nat)) (w : List Nat) (x : Nat)
    (hx : x ∈ writesOf (o.map (fun r => (r.1, w ++ r.2)))) :
    x ∈ w ∨ x ∈ writesOf o := by
  rcases o with _ | r
  · simp [writesOf] at hx
  · simp only [writesOf, Option.map_some, Option.getD_some] at hx ⊢
    exact List.mem_append.mp hx

/-- C10: every byte `PPU::advance` writes into the caller-supplied
framebuffer is zero — every rendered pixel is black, because the 64-entry
palette lookup table is entirely zero-filled.  Quantified over every fuel,
PPU state and cycle budget. -/
theorem C10_render_all_black (fuel : Nat) (p : PPU) (cycles x : Nat)
    (hx : x ∈ writesOf (PPU.advanceF fuel p cycles)) : x = 0 := by
  induction fuel generalizing p cycles with
  | zero => simp [PPU.advanceF, writesOf] at hx
  | succ n ih =>
    unfold PPU.advanceF at hx
    split at hx
    · -- PreRender
      split at hx
      · exact ih _ _ hx
      · simp [writesOf] at hx
    · -- VisibleLines
      split at hx
      · -- Idle
        split at hx
        · exact ih _ _ hx
        · simp [writesOf] at hx
      · -- Render
        split at hx
        · rcases writesOf_map_append _ _ _ hx with h | h
          · exact renderWrites_zero _ _ _ _ h
          · exact ih _ _ h
        · simp only [writesOf, Option.map_some, Option.getD_some] at hx
          exact renderWrites_zero _ _ _ _ hx
      · -- SpriteFetch
        split at hx
        · exact ih _ _ hx
        · simp [writesOf] at hx
      · -- PreFetch
        split at hx
        · exact ih _ _ hx
        · simp [writesOf] at hx
      · -- OtherFetch
        split at hx
        · split at hx
          · exact ih _ _ hx
          · exact ih _ _ hx
        · simp [writesOf] at hx
    · -- PostRender
      split at hx
      · exact ih _ _ hx
      · simp [writesOf] at hx
    · -- Vblank
      dsimp only at hx
      split at hx
      · exact ih _ _ hx
      · simp [writesOf] at hx

/-- Witness for C10: the first byte rendered by one 8-cycle burst at the
start of a visible line is in the write list (and is zero). -/
theorem C10_render_all_black_witness :
    (0 : Nat) ∈ writesOf (PPU.advanceF 3 renderPpu 8) ∧ (0 : Nat) = 0 :=
  ⟨by decide, C10_render_all_black 3 renderPpu 8 0 (by decide)⟩

/-- C1: executing TSX (`transfer_sp_x`) with accumulator 0x00 and stack
pointer 0x80 writes v = 0x80 into X, yet sets Z and clears N — the helper
computed the flags from the accumulator, not from the transferred byte
(the claim requires N = bit 7 of v = 1 and Z = (v = 0) = false). -/
theorem C1_tsx_flags_from_accumulator :
    tsxCpu.transfer_sp_x.idx_register_x = 0x80 ∧
    tsxCpu.transfer_sp_x.zero = true ∧
    tsxCpu.transfer_sp_x.negative = false := by
  refine ⟨by decide, by decide, by decide⟩

/-- C2: at A = 0, M = 0, C = 1 the SBC carry test `A <= sum` clears the
carry, while the claimed-equivalent ADC with operand 255 − M = 255 sets it
(both leave the accumulator at 0) — refuting
`SBC(A, M, C) == ADC(A, 255 − M, C)` for all inputs. -/
theorem C2_sbc_adc_carry_mismatch :
    sbcCpu.sbc_immediate.carry = false ∧
    adcCpu.adc_immediate.carry = true ∧
    sbcCpu.sbc_immediate.accumulator = adcCpu.adc_immediate.accumulator := by
  refine ⟨by decide, by decide, by decide⟩

/-- C5: with PC = 0xFFFF the plain `u16` additions of `advance`
(`program_counter += 1`), of the `get_absolute` high-operand fetch
(`program_counter + 1`) and of the not-taken branch arm overflow — a panic
under checked arithmetic, so the dispatch is not total there; only the
wrapping semantics (release profile, `u16AddWrap`) yields the claimed
wrap-around to 0. -/
theorem C5_pc_increment_overflows :
    topPcCpu.advance_pc_checked = none ∧
    topPcCpu.absolute_high_addr_checked = none ∧
    topPcCpu.branch_not_taken_checked = none ∧
    u16AddWrap topPcCpu.program_counter 1 = 0 := by
  refine ⟨by decide, by decide, by decide, by decide⟩

/-- C6: with the write latch in the expecting-low-byte state, a bus read of
the status mirror 0x200A leaves the latch untouched (and returns the `&0`
default), while a read of the literal 0x2002 does reset it to 8 —
`PPU::read` matches only 0x2002, so the claimed mirror behaviour fails. -/
theorem C6_status_mirror_read_misses_latch :
    (memLatchLow.readEff 0x200A).2.ppu.byte_shift = 0 ∧
    (memLatchLow.readEff 0x200A).1 = 0 ∧
    (memLatchLow.readEff 0x2002).2.ppu.byte_shift = 8 := by
  refine ⟨by decide, by decide, by decide⟩

/-- C7: from a reset latch, writing 0x21 then 0x55 to register 6 (bus
0x2006) yields VRAM address 0x0001 — the `& 0xa0` mask discards the address
bits and the auto-increment fires after every single write — so the
following write of 0x99 to register 7 lands at 0x0001, not at the claimed
0x2155. -/
theorem C7_vram_address_pair_broken :
    vramW2.ppu.vram_address = 1 ∧
    byteAt vramW3.ppu.vram 0x2155 = 0 ∧
    byteAt vramW3.ppu.vram 1 = 0x99 := by
  refine ⟨by decide, by decide, by decide⟩

/-- C8: advancing 65 cycles from the start of SpriteFetch lands in
OtherFetch(1) — the SpriteFetch arm hands over to OtherFetch, so PreFetch is
never reached — and advancing a full claimed scanline of 341 cycles from the
start of visible line 0 overshoots into Render(15) of line 1, because a code
scanline is only 1+256+64+4 = 325 cycles instead of the claimed 341. -/
theorem C8_prefetch_skipped :
    ((PPU.advanceF 10 spritePpu 65).map (fun r => r.1.state))
      = some (.VisibleLines 0 (.OtherFetch 1)) ∧
    ((PPU.advanceF 10 linePpu 341).map (fun r => r.1.state))
      = some (.VisibleLines 1 (.Render 15)) := by
  refine ⟨by decide, by decide⟩

/-- C9: a PPU whose VBlank, sprite-0-hit and overflow status bits (0xE0) are
set, advanced two cycles across the Vblank → PreRender transition, reaches
PreRender cycle 2 with the status byte still 0xE0, observable through a
status read — the PreRender arm never clears any status bit. -/
theorem C9_prerender_keeps_status :
    ((PPU.advanceF 10 vblankEndPpu 2).map (fun r => (r.1.state, r.1.ppu_status)))
      = some (.PreRender 2, 0xE0) ∧
    ((PPU.advanceF 10 vblankEndPpu 2).map (fun r => (r.1.read 0x2002).1))
      = some 0xE0 := by
  refine ⟨by decide, by decide⟩

end Nes

